import Mathlib

/-!
Shallow embedding of the FreeCAD-Reinforcement bill-of-material engine
(`BillOfMaterial/BOMfunc.py` and `BillOfMaterial/BillOfMaterial_SVG.py`).

Physical quantities (lengths in mm, widths, offsets, weights) are modelled as
rationals; Python integers are modelled as `Int`.  String formatting of
numbers (`str(round(...)).rstrip("0").rstrip(".")`) is lossy float
presentation; cells therefore carry the exact quantity being formatted
together with the unit annotation, instead of the formatted string.
Fallible code (Python `KeyError`, uncaught exceptions) is modelled with
`Except`.
-/

namespace Reinforcement

/-- The payload of a rendered SVG cell.  `txt` is a literal caption string,
`int` an integer datum (mark number, rebar count), `qty` a physical quantity
(in its source unit, mm or kg/m) with the display-unit annotation chosen by
the code, `diaTag` the `"#<value>"` diameter sub-header. -/
inductive CellData : Type
  | txt (s : String)
  | int (n : ℤ)
  | qty (v : ℚ) (unit : Option String)
  | diaTag (v : ℚ)
deriving DecidableEq, Repr

/-- One drawing primitive of the table: a bordered rectangle
(`getSVGRectangle`) or a bordered cell with data (`getSVGDataCell`). -/
inductive SvgItem : Type
  | rect (x y w h : ℚ)
  | cell (data : CellData) (x y w h : ℚ)
deriving DecidableEq, Repr

/-- The five fixed keys of the `column_headers` dictionary. -/
inductive ColKey : Type
  | mark
  | rebarsCount
  | diameter
  | rebarLength
  | rebarsTotalLength
deriving DecidableEq, Repr

/-- `rebar_length_type` parameter: `"RealLength"` or `"LengthWithSharpEdges"`. -/
inductive LengthType : Type
  | realLength
  | lengthWithSharpEdges
deriving DecidableEq, Repr

/-- The `Base` object of a rebar, as inspected by `getRebarSharpEdgedLength`:
a `DWire` (has a `Length` attribute, an optional `FilletRadius`, a `Closed`
flag and a list of shape edges, each with its length), a sketch (list of
geometry primitives, each with its length), or anything else. -/
inductive RebarBase : Type
  | dwire (length : ℚ) (filletRadius : Option ℚ) (closed : Bool)
      (edges : List ℚ)
  | sketch (geometry : List ℚ)
  | other
deriving DecidableEq, Repr

/-- A base rebar object: its `Diameter`, its authored `Length` and its
`Base` shape. -/
structure Rebar : Type where
  diameter : ℚ
  length : ℚ
  base : RebarBase
deriving DecidableEq, Repr

/-- One entry of `mark_reinforcements_dict`: a mark number together with the
`Amount` of each reinforcement carrying that mark, and the shared
`BaseRebar` object (the code always reads the first list element's
`BaseRebar`). -/
structure MarkGroup : Type where
  mark : ℤ
  amounts : List ℤ
  baseRebar : Rebar
deriving DecidableEq, Repr

/-- The `column_headers` dictionary: for each of the five fixed keys, either
absent or a `(label, sequence number)` pair. -/
structure ColumnHeaders : Type where
  mark : Option (String × ℤ)
  rebarsCount : Option (String × ℤ)
  diameter : Option (String × ℤ)
  rebarLength : Option (String × ℤ)
  rebarsTotalLength : Option (String × ℤ)
deriving DecidableEq, Repr

/-- Dictionary lookup `column_headers[key]` (`none` models a missing key). -/
def ColumnHeaders.find (ch : ColumnHeaders) : ColKey → Option (String × ℤ)
  | ColKey.mark => ch.mark
  | ColKey.rebarsCount => ch.rebarsCount
  | ColKey.diameter => ch.diameter
  | ColKey.rebarLength => ch.rebarLength
  | ColKey.rebarsTotalLength => ch.rebarsTotalLength

/-- `len(column_headers)`: number of keys present (hidden or not). -/
def ColumnHeaders.size (ch : ColumnHeaders) : ℕ :=
  (if ch.mark.isSome then 1 else 0) +
  (if ch.rebarsCount.isSome then 1 else 0) +
  (if ch.diameter.isSome then 1 else 0) +
  (if ch.rebarLength.isSome then 1 else 0) +
  (if ch.rebarsTotalLength.isSome then 1 else 0)

/-- The dictionary items as a list of `(key, label, sequence)` triples. -/
def ColumnHeaders.toList (ch : ColumnHeaders) :
    List (ColKey × String × ℤ) :=
  (ch.mark.toList.map fun p => (ColKey.mark, p)) ++
  (ch.rebarsCount.toList.map fun p => (ColKey.rebarsCount, p)) ++
  (ch.diameter.toList.map fun p => (ColKey.diameter, p)) ++
  (ch.rebarLength.toList.map fun p => (ColKey.rebarLength, p)) ++
  (ch.rebarsTotalLength.toList.map fun p => (ColKey.rebarsTotalLength, p))

/-- The `column_units` dictionary (keys `"Diameter"`, `"RebarLength"`,
`"RebarsTotalLength"`). -/
structure ColumnUnits : Type where
  diameter : Option String
  rebarLength : Option String
  rebarsTotalLength : Option String
deriving DecidableEq, Repr

/-- `BOMfunc.getBOMScalingFactor`: scaling factor for the BOM table svg to
fit inside the template.  Numbers are rationals; a max width/height of `0`
is falsy in Python, i.e. "no cap". -/
def getBOMScalingFactor (bom_width bom_height bom_left_offset bom_top_offset
    template_width template_height bom_min_right_offset
    bom_min_bottom_offset bom_table_max_width bom_table_max_height : ℚ) :
    ℚ :=
  let scale : Bool :=
    (decide
      (template_width - bom_width - bom_left_offset - bom_min_right_offset
        < 0) ||
     decide
      (template_height - bom_height - bom_top_offset - bom_min_bottom_offset
        < 0))
  let scale : Bool :=
    if bom_table_max_width ≠ 0 then
      (if bom_table_max_width < bom_width then true else scale)
    else scale
  let scale : Bool :=
    if bom_table_max_height ≠ 0 then
      (if bom_table_max_height < bom_height then true else scale)
    else scale
  if !scale then 1
  else
    let h_scaling_factor :=
      (template_width - bom_left_offset - bom_min_right_offset) / bom_width
    let h_scaling_factor :=
      if bom_table_max_width ≠ 0 then
        min h_scaling_factor (bom_table_max_width / bom_width)
      else h_scaling_factor
    let v_scaling_factor :=
      (template_height - bom_top_offset - bom_min_bottom_offset) /
        bom_height
    let v_scaling_factor :=
      if bom_table_max_height ≠ 0 then
        min v_scaling_factor (bom_table_max_height / bom_height)
      else v_scaling_factor
    min h_scaling_factor v_scaling_factor

/-- Every other element of a list, starting with the first: `edges[::2]`. -/
def everyOther : List ℚ → List ℚ
  | [] => []
  | [a] => [a]
  | a :: _ :: rest => a :: everyOther rest

/-- `BOMfunc.getRebarSharpEdgedLength`: sharp edged length of a rebar.
For a `DWire` base with a nonzero fillet radius it sums the even-indexed
(straight) edges and adds `2 * corners * filletRadius` where `corners` is
`len(edges) / 2` (closed) or `(len(edges) - 1) / 2` (open), Python float
division modelled as exact rational division.  The error fallback
(`PrintError` then `0 mm`) is modelled as `0`. -/
def getRebarSharpEdgedLength (rebar : Rebar) : ℚ :=
  match rebar.base with
  | RebarBase.dwire length filletRadius closed edges =>
    match filletRadius with
    | none => length
    | some fr =>
      if fr = 0 then length
      else
        let corners : ℚ :=
          if closed then (edges.length : ℚ) / 2
          else ((edges.length : ℚ) - 1) / 2
        let extension_length := 2 * corners * fr
        let rebar_straight_length := (everyOther edges).sum
        rebar_straight_length + extension_length
  | RebarBase.sketch geometry => geometry.sum
  | RebarBase.other => 0

/-- Lines 65-68 of `getColumnOffset`: shift a sequence number right by
`len(diameter_list) - 1` when the `"RebarsTotalLength"` column is present
with a strictly smaller sequence number and the diameter list is
nonempty. -/
def rtlShiftedSeq (rtl : Option (String × ℤ)) (n_dias : ℕ) (seq : ℤ) :
    ℤ :=
  match rtl with
  | some q =>
    if q.2 < seq then
      (if n_dias ≠ 0 then seq + ((n_dias : ℤ) - 1) else seq)
    else seq
  | none => seq

/-- `BillOfMaterial_SVG.getColumnOffset`: left offset of a column in the
svg; `none` models the `KeyError` on a missing key.  If the
`"RebarsTotalLength"` column is present with a strictly smaller sequence
number and the diameter list is nonempty, the sequence number is shifted
right by `len(diameter_list) - 1`. -/
def getColumnOffset (column_headers : ColumnHeaders) (diameter_list : List ℚ)
    (column_header : ColKey) (column_width : ℚ) : Option ℚ :=
  (column_headers.find column_header).map fun p =>
    let seq := rtlShiftedSeq column_headers.rebarsTotalLength
      diameter_list.length p.2
    column_width * ((seq : ℚ) - 1)

/-- `BOMfunc.getUniqueDiameterList`: the distinct diameters of the groups'
base rebars (each group contributes its first reinforcement's base rebar
diameter), collected in first-occurrence order and then sorted ascending. -/
def getUniqueDiameterList (groups : List MarkGroup) : List ℚ :=
  let diameter_list := groups.foldl
    (fun acc g =>
      if g.baseRebar.diameter ∈ acc then acc
      else acc ++ [g.baseRebar.diameter])
    []
  List.insertionSort (· ≤ ·) diameter_list

/-- The diameter sub-header cells of `getColumnHeadersSVG` (the inner
`for dia in diameter_list` loop), one band below the main header, advancing
the column offset by one column width per diameter. -/
def diaHeaderCells (y_offset column_width row_height : ℚ) :
    List ℚ → ℚ → List SvgItem
  | [], _ => []
  | dia :: rest, column_offset =>
    SvgItem.cell (CellData.diaTag dia) column_offset (y_offset + row_height)
        column_width row_height ::
      diaHeaderCells y_offset column_width row_height rest
        (column_offset + column_width)

/-- The header loop of `getColumnHeadersSVG`: iterate the visible columns
sorted by sequence number with a running column offset; an ordinary column
emits one cell of the full band height and advances by one column width,
the `"RebarsTotalLength"` column emits a spanning cell of one row height
plus the diameter sub-headers and advances by one width per diameter. -/
def headerCellsLoop (diameter_list : List ℚ)
    (y_offset column_width row_height height : ℚ) :
    List (ColKey × String × ℤ) → ℚ → List SvgItem
  | [], _ => []
  | (key, label, _) :: rest, column_offset =>
    if key = ColKey.rebarsTotalLength then
      SvgItem.cell (CellData.txt label) column_offset y_offset
          (column_width * (diameter_list.length : ℚ)) row_height ::
        (diaHeaderCells y_offset column_width row_height diameter_list
            column_offset ++
          headerCellsLoop diameter_list y_offset column_width row_height
            height rest
            (column_offset + column_width * (diameter_list.length : ℚ)))
    else
      SvgItem.cell (CellData.txt label) column_offset y_offset column_width
          height ::
        headerCellsLoop diameter_list y_offset column_width row_height
          height rest (column_offset + column_width)

/-- `BillOfMaterial_SVG.getColumnHeadersSVG`: hidden (sequence number 0)
columns are deleted first; the rest are drawn sorted by sequence number;
the band is two row heights when the `"RebarsTotalLength"` column remains
after deletion, else one. -/
def getColumnHeadersSVG (column_headers : ColumnHeaders)
    (diameter_list : List ℚ) (y_offset column_width row_height : ℚ) :
    List SvgItem :=
  let visible := column_headers.toList.filter fun e => decide (e.2.2 ≠ 0)
  let height :=
    if visible.any (fun e => decide (e.1 = ColKey.rebarsTotalLength)) then
      2 * row_height
    else row_height
  let sorted := List.insertionSort (fun a b => a.2.2 ≤ b.2.2) visible
  headerCellsLoop diameter_list y_offset column_width row_height height
    sorted 0

/-- Lines 417-422 of `makeBillOfMaterialSVG`: the per-piece length used for
a row, `0 mm` unless the `"RebarLength"` key is present in the column
configuration; then the authored length (`"RealLength"`) or the sharp-edged
length. -/
def baseRebarLengthOf (column_headers : ColumnHeaders)
    (rebar_length_type : LengthType) (g : MarkGroup) : ℚ :=
  match column_headers.rebarLength with
  | some _ =>
    match rebar_length_type with
    | LengthType.realLength => g.baseRebar.length
    | LengthType.lengthWithSharpEdges => getRebarSharpEdgedLength g.baseRebar
  | none => 0

/-- Lines 459-461: `rebar_total_length`, folding
`+ reinforcement.Amount * base_rebar_length` over the mark's
reinforcements. -/
def rebarTotalLength (amounts : List ℤ) (base_rebar_length : ℚ) : ℚ :=
  amounts.foldl
    (fun (acc : ℚ) (a : ℤ) => acc + (a : ℚ) * base_rebar_length) 0

/-- Python `list.index(x)`: the position of the first occurrence (the
program only calls it on present elements; `0` past the end default is
never used there). -/
def listIndex : List ℚ → ℚ → ℕ
  | [], _ => 0
  | a :: rest, x => if a = x then 0 else listIndex rest x + 1

/-- Lines 486-512: the aggregate-column cells of one body row: the data
cell in the sub-column `diameter_list.index(dia)` slots right of the
aggregate column's offset for the row's own diameter, an empty bordered
rectangle in every other diameter sub-column. -/
def aggregateRowCells (data : CellData) (column_offset : ℚ)
    (diameter_list : List ℚ)
    (g_diameter y_offset column_width row_height : ℚ) : List SvgItem :=
  diameter_list.map fun dia =>
    if dia = g_diameter then
      SvgItem.cell data
        (column_offset + (listIndex diameter_list dia : ℚ) * column_width)
        y_offset column_width row_height
    else
      SvgItem.rect
        (column_offset + (listIndex diameter_list dia : ℚ) * column_width)
        y_offset column_width row_height

/-- One iteration of the body loop (lines 338-516): the cells of the row
for one mark.  Each section is guarded by the key's presence in
`column_headers` (dictionary membership, independent of the sequence
number). -/
def bomRow (column_headers : ColumnHeaders) (column_units : ColumnUnits)
    (rebar_length_type : LengthType) (diameter_list : List ℚ)
    (column_width row_height y_offset : ℚ) (g : MarkGroup) : List SvgItem :=
  let markCells :=
    match getColumnOffset column_headers diameter_list ColKey.mark
        column_width with
    | some off =>
      [SvgItem.cell (CellData.int g.mark) off y_offset column_width
        row_height]
    | none => []
  let rebars_count := g.amounts.foldl (fun acc a => acc + a) 0
  let countCells :=
    match getColumnOffset column_headers diameter_list ColKey.rebarsCount
        column_width with
    | some off =>
      [SvgItem.cell (CellData.int rebars_count) off y_offset column_width
        row_height]
    | none => []
  let diaCells :=
    match getColumnOffset column_headers diameter_list ColKey.diameter
        column_width with
    | some off =>
      [SvgItem.cell
        (CellData.qty g.baseRebar.diameter column_units.diameter) off
        y_offset column_width row_height]
    | none => []
  let base_rebar_length :=
    baseRebarLengthOf column_headers rebar_length_type g
  let lenCells :=
    match getColumnOffset column_headers diameter_list ColKey.rebarLength
        column_width with
    | some off =>
      [SvgItem.cell
        (CellData.qty base_rebar_length column_units.rebarLength) off
        y_offset column_width row_height]
    | none => []
  let rebar_total_length := rebarTotalLength g.amounts base_rebar_length
  let aggCells :=
    match getColumnOffset column_headers diameter_list
        ColKey.rebarsTotalLength column_width with
    | some off =>
      aggregateRowCells
        (CellData.qty rebar_total_length column_units.rebarsTotalLength)
        off diameter_list g.baseRebar.diameter y_offset column_width
        row_height
    | none => []
  (((markCells ++ countCells) ++ diaCells) ++ lenCells) ++ aggCells

/-- Line 462: `dia_total_length_dict[dia] += value` on an association list
keyed by diameter.  (In the program the key is always present: the
dictionary is initialized with every diameter of the list.) -/
def addToDiaTotal : List (ℚ × ℚ) → ℚ → ℚ → List (ℚ × ℚ)
  | [], _, _ => []
  | (k, v) :: rest, key, value =>
    if k = key then (k, v + value) :: rest
    else (k, v) :: addToDiaTotal rest key value

/-- The body loop of `makeBillOfMaterialSVG` (lines 338-516): one row per
mark, advancing `y_offset` by one row height per row and accumulating each
row's total length into the per-diameter dictionary.  Returns the rows, the
final accumulator and the final `y_offset`. -/
def bomRowsLoop (column_headers : ColumnHeaders)
    (column_units : ColumnUnits) (rebar_length_type : LengthType)
    (diameter_list : List ℚ) (column_width row_height : ℚ) :
    List MarkGroup → ℚ → List (ℚ × ℚ) →
      List (List SvgItem) × List (ℚ × ℚ) × ℚ
  | [], y_offset, acc => ([], acc, y_offset)
  | g :: rest, y_offset, acc =>
    let row := bomRow column_headers column_units rebar_length_type
      diameter_list column_width row_height y_offset g
    let base_rebar_length := baseRebarLengthOf column_headers
      rebar_length_type g
    let acc := addToDiaTotal acc g.baseRebar.diameter
      (rebarTotalLength g.amounts base_rebar_length)
    let res := bomRowsLoop column_headers column_units rebar_length_type
      diameter_list column_width row_height rest (y_offset + row_height)
      acc
    (row :: res.1, res.2.1, res.2.2)

/-- Association-list lookup modelling Python `d[k]` where the key is known
to be present (`0` is a never-used default). -/
def lookupAssoc (l : List (ℚ × ℚ)) (k : ℚ) : ℚ :=
  ((l.find? fun p => decide (p.1 = k)).map Prod.snd).getD 0

/-- Python `k in d` plus `d[k]` on the diameter→weight table. -/
def lookupWeight (dia_weight_map : List (ℚ × ℚ)) (k : ℚ) : Option ℚ :=
  (dia_weight_map.find? fun p => decide (p.1 = k)).map Prod.snd

/-- Lines 573-670: per-diameter cells of the totals footer when the
aggregate column is not leftmost: the accumulated-length cell, then either
the weight-per-length and total-weight cells (diameter present in the
weight table) or two empty bordered rectangles. -/
def footerDiaCellsShifted (dia_weight_map acc : List (ℚ × ℚ))
    (unit : Option String)
    (rtl_offset y_offset column_width row_height : ℚ) :
    List ℚ → ℕ → List SvgItem
  | [], _ => []
  | dia :: rest, i =>
    let x := rtl_offset + (i : ℚ) * column_width
    (SvgItem.cell (CellData.qty (lookupAssoc acc dia) unit) x y_offset
        column_width row_height ::
      (match lookupWeight dia_weight_map dia with
       | some w =>
         [SvgItem.cell (CellData.qty w (unit.map fun u => "kg/" ++ u)) x
            (y_offset + row_height) column_width row_height,
          SvgItem.cell (CellData.qty (w * lookupAssoc acc dia) none) x
            (y_offset + 2 * row_height) column_width row_height]
       | none =>
         [SvgItem.rect x (y_offset + row_height) column_width row_height,
          SvgItem.rect x (y_offset + 2 * row_height) column_width
            row_height])) ++
      footerDiaCellsShifted dia_weight_map acc unit rtl_offset y_offset
        column_width row_height rest (i + 1)

/-- Lines 691-771: per-diameter cells of the totals footer when the
aggregate column is leftmost.  A diameter missing from the weight table
produces no cell at all in the two weight rows: the source has no `else`
branch here, unlike the not-leftmost layout. -/
def footerDiaCellsLeft (dia_weight_map acc : List (ℚ × ℚ))
    (unit : Option String) (y_offset column_width row_height : ℚ) :
    List ℚ → ℕ → List SvgItem
  | [], _ => []
  | dia :: rest, i =>
    let x := (i : ℚ) * column_width
    (SvgItem.cell (CellData.qty (lookupAssoc acc dia) unit) x y_offset
        column_width row_height ::
      (match lookupWeight dia_weight_map dia with
       | some w =>
         [SvgItem.cell (CellData.qty w (unit.map fun u => "kg/" ++ u)) x
            (y_offset + row_height) column_width row_height,
          SvgItem.cell (CellData.qty (w * lookupAssoc acc dia) none) x
            (y_offset + 2 * row_height) column_width row_height]
       | none => [])) ++
      footerDiaCellsLeft dia_weight_map acc unit y_offset column_width
        row_height rest (i + 1)

/-- Lines 672-689: three rows of empty rectangles for each column
configured after the aggregate column (the count uses `len(column_headers)`
over all keys, hidden ones included; a negative count gives an empty
range). -/
def footerRemainderRects (ch_size : ℕ) (rtl_order : ℤ) (n_dias : ℕ)
    (y_offset column_width row_height : ℚ) : List SvgItem :=
  (List.range ((ch_size : ℤ) - rtl_order).toNat).flatMap fun remColumn =>
    let column_offset :=
      ((rtl_order : ℚ) + (n_dias : ℚ) - 1 + (remColumn : ℚ)) * column_width
    [SvgItem.rect column_offset y_offset column_width row_height,
     SvgItem.rect column_offset (y_offset + row_height) column_width
       row_height,
     SvgItem.rect column_offset (y_offset + 2 * row_height) column_width
       row_height]

/-- Lines 532-689: the totals footer when the aggregate column's sequence
number is not 1.  The three caption cells perform an unguarded
`column_units["RebarsTotalLength"]` lookup, a `KeyError` when the key is
missing.  (`getD 0` on the aggregate column's offset is never used: this
branch runs only when the key is present.) -/
def footerNotLeftmost (column_headers : ColumnHeaders)
    (column_units : ColumnUnits) (diameter_list : List ℚ)
    (dia_weight_map acc : List (ℚ × ℚ)) (rtl_order : ℤ)
    (y_offset column_width row_height : ℚ) :
    Except String (List SvgItem) :=
  let rtl_offset :=
    (getColumnOffset column_headers diameter_list ColKey.rebarsTotalLength
      column_width).getD 0
  match column_units.rebarsTotalLength with
  | none => Except.error "KeyError: RebarsTotalLength"
  | some u =>
    Except.ok
      ([SvgItem.cell
          (CellData.txt ("Total length in " ++ u ++ "/Diameter")) 0
          y_offset rtl_offset row_height,
        SvgItem.cell (CellData.txt ("Weight in Kg/" ++ u)) 0
          (y_offset + row_height) rtl_offset row_height,
        SvgItem.cell (CellData.txt "Total Weight in Kg/Diameter") 0
          (y_offset + 2 * row_height) rtl_offset row_height] ++
       footerDiaCellsShifted dia_weight_map acc
         column_units.rebarsTotalLength rtl_offset y_offset column_width
         row_height diameter_list 0 ++
       footerRemainderRects column_headers.size rtl_order
         diameter_list.length y_offset column_width row_height)

/-- Lines 690-808: the totals footer when the aggregate column's sequence
number is 1.  The per-diameter loop runs first (its value formatting guards
the unit lookup); the three caption cells then perform the unguarded
`column_units["RebarsTotalLength"]` lookup, a `KeyError` when missing. -/
def footerLeftmost (column_headers : ColumnHeaders)
    (column_units : ColumnUnits) (diameter_list : List ℚ)
    (dia_weight_map acc : List (ℚ × ℚ))
    (y_offset column_width row_height : ℚ) :
    Except String (List SvgItem) :=
  let diaCells := footerDiaCellsLeft dia_weight_map acc
    column_units.rebarsTotalLength y_offset column_width row_height
    diameter_list 0
  let first_txt_column_offset := (diameter_list.length : ℚ) * column_width
  match column_units.rebarsTotalLength with
  | none => Except.error "KeyError: RebarsTotalLength"
  | some u =>
    Except.ok
      (diaCells ++
       [SvgItem.cell
          (CellData.txt ("Total length in " ++ u ++ "/Diameter"))
          first_txt_column_offset y_offset
          (column_width * ((column_headers.size : ℚ) - 1)) row_height,
        SvgItem.cell (CellData.txt ("Weight in Kg/" ++ u))
          first_txt_column_offset (y_offset + row_height)
          (column_width * ((column_headers.size : ℚ) - 1)) row_height,
        SvgItem.cell (CellData.txt "Total Weight in Kg/Diameter")
          first_txt_column_offset (y_offset + 2 * row_height)
          (column_width * ((column_headers.size : ℚ) - 1)) row_height])

/-- The inputs of one `makeBillOfMaterialSVG` run: the configuration plus
the reinforcement repository's records grouped by mark (in document
insertion order) and the configured diameter→weight table. -/
structure BOMInput : Type where
  columnHeaders : ColumnHeaders
  columnUnits : ColumnUnits
  rebarLengthType : LengthType
  columnWidth : ℚ
  rowHeight : ℚ
  diaWeightMap : List (ℚ × ℚ)
  groups : List MarkGroup
deriving DecidableEq, Repr

/-- The drawing produced by one run: header band cells, one cell list per
body row (marks ascending), the closing full-width border rectangle, the
totals footer cells, the final per-diameter length accumulator and the
computed table width and height. -/
structure BOMResult : Type where
  headerCells : List SvgItem
  bodyRows : List (List SvgItem)
  closingRect : SvgItem
  footerCells : List SvgItem
  diaTotals : List (ℚ × ℚ)
  bomWidth : ℚ
  bomHeight : ℚ
deriving DecidableEq, Repr

/-- `BillOfMaterial_SVG.makeBillOfMaterialSVG`, lines 298-817: the table
generation up to the computed width and height.  `Except.error` models an
uncaught Python exception (the `KeyError` of the footer caption lookups). -/
def makeBillOfMaterialSVG (inp : BOMInput) : Except String BOMResult :=
  let ch := inp.columnHeaders
  let cw := inp.columnWidth
  let rh := inp.rowHeight
  let diameter_list := getUniqueDiameterList inp.groups
  let headerCells := getColumnHeadersSVG ch diameter_list 0 cw rh
  let acc0 := diameter_list.map fun dia => (dia, (0 : ℚ))
  let y_offset : ℚ := if ch.rebarsTotalLength.isSome then 2 * rh else rh
  let sortedGroups :=
    List.insertionSort (fun a b => a.mark ≤ b.mark) inp.groups
  let res := bomRowsLoop ch inp.columnUnits inp.rebarLengthType
    diameter_list cw rh sortedGroups y_offset acc0
  let bodyRows := res.1
  let acc := res.2.1
  let y_offset := res.2.2
  let closingRect := SvgItem.rect 0 y_offset
    (cw * ((ch.size : ℚ) + (diameter_list.length : ℚ) - 1)) rh
  let y_offset := y_offset + rh
  let footerRes : Except String (List SvgItem) :=
    match ch.rebarsTotalLength with
    | none => Except.ok []
    | some p =>
      if p.2 ≠ 1 then
        footerNotLeftmost ch inp.columnUnits diameter_list inp.diaWeightMap
          acc p.2 y_offset cw rh
      else
        footerLeftmost ch inp.columnUnits diameter_list inp.diaWeightMap
          acc y_offset cw rh
  match footerRes with
  | Except.error e => Except.error e
  | Except.ok footerCells =>
    Except.ok
      { headerCells := headerCells
        bodyRows := bodyRows
        closingRect := closingRect
        footerCells := footerCells
        diaTotals := acc
        bomWidth :=
          cw * ((ch.size : ℚ) + (diameter_list.length : ℚ) - 1)
        bomHeight := y_offset + 3 * rh }

/-- Lines 852-856: the placement stored on the content object: the single
scaling factor is applied to both the width and the height. -/
def bomContentPlacement (bom_width bom_height bom_left_offset bom_top_offset
    template_height scaling_factor : ℚ) : ℚ × ℚ :=
  (bom_width * scaling_factor / 2 + bom_left_offset,
   template_height - bom_height * scaling_factor / 2 - bom_top_offset)

/-- Lines 858-898 of `makeBillOfMaterialSVG`: template read, placeholder
substitution and output write.  `templateContent` is the template file's
text (`none` when reading raises), `openOk` whether `open(output_file,
"w")` succeeds, `writeOk` whether the write call then succeeds.  The
result is `(returned svg_output, console error log, content written)`;
`Except.error` is an exception escaping the function.  When `open` itself
raises, the `with ... as svg_output_file` target is never bound — the
binding state of that local is `boundHandle` — so the bare `except`
handler's `str(svg_output_file)` raises `UnboundLocalError`. -/
def makeBOMFileOutput (templateContent : Option String)
    (outputRequested openOk writeOk : Bool)
    (svg_output table_svg : String) :
    Except String (String × List String × Option String) :=
  let templateRead :=
    match templateContent with
    | some s => (s, ([] : List String))
    | none => ("", ["Error reading template file"])
  let template_svg := templateRead.1
  let log := templateRead.2
  if outputRequested then
    let svg_sheet :=
      if template_svg ≠ "" then
        template_svg.replace "<!-- DrawingContent -->" table_svg
      else table_svg
    let boundHandle : Option String :=
      if openOk then some "svg_output_file" else none
    if openOk && writeOk then Except.ok (svg_output, log, some svg_sheet)
    else
      match boundHandle with
      | some h =>
        Except.ok
          (svg_output, log ++ ["Error writing svg to file " ++ h], none)
      | none =>
        Except.error
          "UnboundLocalError: local variable svg_output_file referenced before assignment"
  else Except.ok (svg_output, log, none)

set_option maxHeartbeats 1600000 in
/-- Rewriting `getBOMScalingFactor` as one conditional: the sequential
flag-setting is a disjunction of the four trigger conditions, and the
scaled branch is the min of the (possibly capped) per-axis bounds. -/
lemma getBOMScalingFactor_eq
    (bw bh lo tp tw th ro bo mw mh : ℚ) :
    getBOMScalingFactor bw bh lo tp tw th ro bo mw mh =
      if tw - bw - lo - ro < 0 ∨ th - bh - tp - bo < 0 ∨
          (mw ≠ 0 ∧ mw < bw) ∨ (mh ≠ 0 ∧ mh < bh) then
        min
          (if mw ≠ 0 then min ((tw - lo - ro) / bw) (mw / bw)
           else (tw - lo - ro) / bw)
          (if mh ≠ 0 then min ((th - tp - bo) / bh) (mh / bh)
           else (th - tp - bo) / bh)
      else 1 := by
  simp only [getBOMScalingFactor]
  by_cases h1 : tw - bw - lo - ro < 0 <;>
    by_cases h2 : th - bh - tp - bo < 0 <;>
      by_cases h3 : mw = 0 <;>
        by_cases h4 : mh = 0 <;>
          by_cases h5 : mw < bw <;>
            by_cases h6 : mh < bh <;>
              simp [h1, h2, h3, h4, h5, h6]

/-- Whenever one of the trigger conditions holds and the natural sizes are
positive, the scaled branch of `getBOMScalingFactor` is strictly below 1. -/
lemma scaleBound_lt_one {bw bh lo tp tw th ro bo mw mh : ℚ}
    (hbw : 0 < bw) (hbh : 0 < bh)
    (htrig : tw - bw - lo - ro < 0 ∨ th - bh - tp - bo < 0 ∨
      (mw ≠ 0 ∧ mw < bw) ∨ (mh ≠ 0 ∧ mh < bh)) :
    min
      (if mw ≠ 0 then min ((tw - lo - ro) / bw) (mw / bw)
       else (tw - lo - ro) / bw)
      (if mh ≠ 0 then min ((th - tp - bo) / bh) (mh / bh)
       else (th - tp - bo) / bh) < 1 := by
  rcases htrig with h | h | ⟨hn, hlt⟩ | ⟨hn, hlt⟩
  · have hx : (tw - lo - ro) / bw < 1 := (div_lt_one hbw).2 (by linarith)
    refine lt_of_le_of_lt (le_trans (min_le_left _ _) ?_) hx
    split
    · exact min_le_left _ _
    · exact le_refl _
  · have hx : (th - tp - bo) / bh < 1 := (div_lt_one hbh).2 (by linarith)
    refine lt_of_le_of_lt (le_trans (min_le_right _ _) ?_) hx
    split
    · exact min_le_left _ _
    · exact le_refl _
  · have hx : mw / bw < 1 := (div_lt_one hbw).2 hlt
    refine lt_of_le_of_lt (le_trans (min_le_left _ _) ?_) hx
    rw [if_pos hn]
    exact min_le_right _ _
  · have hx : mh / bh < 1 := (div_lt_one hbh).2 hlt
    refine lt_of_le_of_lt (le_trans (min_le_right _ _) ?_) hx
    rw [if_pos hn]
    exact min_le_right _ _

/-- C4: `getBOMScalingFactor` returns exactly 1 iff the natural size plus
offsets fits in the page (with nonnegative slack — the overflow test is
strict, so an exact fit does not trigger scaling) and no configured cap is
strictly smaller than the natural size. -/
theorem getBOMScalingFactor_eq_one_iff
    (bw bh lo tp tw th ro bo mw mh : ℚ) (hbw : 0 < bw) (hbh : 0 < bh) :
    getBOMScalingFactor bw bh lo tp tw th ro bo mw mh = 1 ↔
      0 ≤ tw - bw - lo - ro ∧ 0 ≤ th - bh - tp - bo ∧
        (mw ≠ 0 → bw ≤ mw) ∧ (mh ≠ 0 → bh ≤ mh) := by
  rw [getBOMScalingFactor_eq]
  constructor
  · intro h
    split at h
    case isTrue ht => exact absurd h (ne_of_lt (scaleBound_lt_one hbw hbh ht))
    case isFalse hf =>
      push_neg at hf
      exact hf
  · rintro ⟨f1, f2, f3, f4⟩
    rw [if_neg]
    rintro (h | h | ⟨hn, hlt⟩ | ⟨hn, hlt⟩)
    · linarith
    · linarith
    · exact absurd hlt (not_lt.2 (f3 hn))
    · exact absurd hlt (not_lt.2 (f4 hn))

/-- Witness for C4 at a concrete input with exactly zero slack on both axes
and no caps: the factor is 1. -/
theorem getBOMScalingFactor_eq_one_iff_witness :
    getBOMScalingFactor 10 10 5 5 15 15 0 0 0 0 = 1 ↔
      0 ≤ (15 : ℚ) - 10 - 5 - 0 ∧ 0 ≤ (15 : ℚ) - 10 - 5 - 0 ∧
        ((0 : ℚ) ≠ 0 → (10 : ℚ) ≤ 0) ∧ ((0 : ℚ) ≠ 0 → (10 : ℚ) ≤ 0) :=
  getBOMScalingFactor_eq_one_iff 10 10 5 5 15 15 0 0 0 0 (by norm_num)
    (by norm_num)

/-- C5 counterexample: with a left offset larger than the page the factor
is −5, which is not strictly positive, refuting the claimed range (0, 1]. -/
theorem getBOMScalingFactor_not_pos_example :
    getBOMScalingFactor 10 10 100 0 50 50 0 0 0 0 = -5 ∧
      ¬(0 < getBOMScalingFactor 10 10 100 0 50 50 0 0 0 0 ∧
        getBOMScalingFactor 10 10 100 0 50 50 0 0 0 0 ≤ 1) := by
  have h : getBOMScalingFactor 10 10 100 0 50 50 0 0 0 0 = -5 := by
    norm_num [getBOMScalingFactor]
  refine ⟨h, ?_⟩
  rw [h]
  norm_num

/-- C5 amended: the factor never exceeds 1 and is strictly positive as soon
as the page minus offsets and clearances leaves positive room on both axes
and any configured cap is positive; the single factor is the one applied tp
both axes by the content placement. -/
theorem getBOMScalingFactor_pos_le_one
    (bw bh lo tp tw th ro bo mw mh : ℚ) (hbw : 0 < bw) (hbh : 0 < bh)
    (hw : 0 < tw - lo - ro) (hh : 0 < th - tp - bo)
    (hmw : mw ≠ 0 → 0 < mw) (hmh : mh ≠ 0 → 0 < mh) :
    0 < getBOMScalingFactor bw bh lo tp tw th ro bo mw mh ∧
      getBOMScalingFactor bw bh lo tp tw th ro bo mw mh ≤ 1 ∧
      bomContentPlacement bw bh lo tp th
          (getBOMScalingFactor bw bh lo tp tw th ro bo mw mh) =
        (bw * getBOMScalingFactor bw bh lo tp tw th ro bo mw mh / 2 + lo,
         th - bh * getBOMScalingFactor bw bh lo tp tw th ro bo mw mh / 2 -
           tp) := by
  refine ⟨?_, ?_, rfl⟩
  · rw [getBOMScalingFactor_eq]
    split
    · refine lt_min ?_ ?_
      · split
        case isTrue hn =>
          exact lt_min (div_pos hw hbw) (div_pos (hmw hn) hbw)
        case isFalse => exact div_pos hw hbw
      · split
        case isTrue hn =>
          exact lt_min (div_pos hh hbh) (div_pos (hmh hn) hbh)
        case isFalse => exact div_pos hh hbh
    · norm_num
  · rw [getBOMScalingFactor_eq]
    split
    case isTrue ht => exact le_of_lt (scaleBound_lt_one hbw hbh ht)
    case isFalse => exact le_refl _

/-- Witness for the amended C5 at a concrete triggering input: the factor
is applied in (0, 1]. -/
theorem getBOMScalingFactor_pos_le_one_witness :
    0 < getBOMScalingFactor 100 10 0 0 60 100 0 0 0 0 ∧
      getBOMScalingFactor 100 10 0 0 60 100 0 0 0 0 ≤ 1 ∧
      bomContentPlacement 100 10 0 0 100
          (getBOMScalingFactor 100 10 0 0 60 100 0 0 0 0) =
        (100 * getBOMScalingFactor 100 10 0 0 60 100 0 0 0 0 / 2 + 0,
         100 - 10 * getBOMScalingFactor 100 10 0 0 60 100 0 0 0 0 / 2 -
           0) :=
  getBOMScalingFactor_pos_le_one 100 10 0 0 60 100 0 0 0 0 (by norm_num)
    (by norm_num) (by norm_num) (by norm_num)
    (fun h => absurd rfl h) (fun h => absurd rfl h)

/-- C8: the sharp-edged length.  With an authored length and a nonzero
fillet radius it is the sum of the straight (even-indexed) edges plus
`2 × cornerCount × filletRadius`, the corner count being `edges/2` for a
closed shape and `(edges−1)/2` for an open one; with an absent or zero
fillet radius it is the authored length unmodified; for sketch geometry it
is the sum of the primitives' lengths. -/
theorem getRebarSharpEdgedLength_spec :
    (∀ (r : Rebar) (len fr : ℚ) (closed : Bool) (edges : List ℚ),
        r.base = RebarBase.dwire len (some fr) closed edges → fr ≠ 0 →
        getRebarSharpEdgedLength r =
          (everyOther edges).sum +
            2 * (if closed then (edges.length : ℚ) / 2
                 else ((edges.length : ℚ) - 1) / 2) * fr) ∧
    (∀ (r : Rebar) (len : ℚ) (closed : Bool) (edges : List ℚ),
        r.base = RebarBase.dwire len none closed edges ∨
          r.base = RebarBase.dwire len (some 0) closed edges →
        getRebarSharpEdgedLength r = len) ∧
    (∀ (r : Rebar) (geom : List ℚ), r.base = RebarBase.sketch geom →
        getRebarSharpEdgedLength r = geom.sum) := by
  refine ⟨?_, ?_, ?_⟩
  · intro r len fr closed edges hbase hfr
    rw [getRebarSharpEdgedLength, hbase]
    simp [hfr]
  · intro r len closed edges hbase
    rcases hbase with hbase | hbase <;> rw [getRebarSharpEdgedLength, hbase]
    simp
  · intro r geom hbase
    rw [getRebarSharpEdgedLength, hbase]

/-- Witness for C8 at concrete shapes: a closed filleted wire with four
edges (two straight of lengths 3 and 4, fillet radius 2 ⇒ 3+4+2·2·2 = 15),
an unfilleted wire (authored length 7) and a sketch (2+3 = 5). -/
theorem getRebarSharpEdgedLength_spec_witness :
    getRebarSharpEdgedLength
        ⟨8, 7, RebarBase.dwire 7 (some 2) true [3, 1, 4, 1]⟩ = 15 ∧
      getRebarSharpEdgedLength ⟨8, 7, RebarBase.dwire 7 none false []⟩ =
        7 ∧
      getRebarSharpEdgedLength ⟨8, 7, RebarBase.sketch [2, 3]⟩ = 5 :=
  ⟨(getRebarSharpEdgedLength_spec.1
      ⟨8, 7, RebarBase.dwire 7 (some 2) true [3, 1, 4, 1]⟩ 7 2 true
      [3, 1, 4, 1] rfl (by norm_num)).trans
      (by norm_num [everyOther]),
   getRebarSharpEdgedLength_spec.2.1 ⟨8, 7, RebarBase.dwire 7 none false []⟩
     7 false [] (Or.inl rfl),
   (getRebarSharpEdgedLength_spec.2.2 ⟨8, 7, RebarBase.sketch [2, 3]⟩
      [2, 3] rfl).trans (by norm_num)⟩

/-- From a strict inequality of sequence numbers, the corresponding column
offsets differ by at least one column width. -/
lemma offset_step (cw : ℚ) (s1 s2 : ℤ) (h : s1 < s2) (hcw : 0 ≤ cw) :
    cw * ((s1 : ℚ) - 1) + cw ≤ cw * ((s2 : ℚ) - 1) := by
  have hc : (s1 : ℚ) ≤ (s2 : ℚ) - 1 := by
    have hs : s1 ≤ s2 - 1 := by omega
    exact_mod_cast hs
  calc cw * ((s1 : ℚ) - 1) + cw = cw * (s1 : ℚ) := by ring
    _ ≤ cw * ((s2 : ℚ) - 1) := mul_le_mul_of_nonneg_left hc hcw

/-- C9: for two visible columns with orders `o1 < o2` under one
configuration and diameter list, both offsets exist and
`offset(o2) ≥ offset(o1) + columnWidth` (for a nonnegative column width);
offsets are monotonically non-decreasing in order. -/
theorem getColumnOffset_mono (ch : ColumnHeaders) (dias : List ℚ) (cw : ℚ)
    (k1 k2 : ColKey) (l1 l2 : String) (o1 o2 : ℤ)
    (h1 : ch.find k1 = some (l1, o1)) (h2 : ch.find k2 = some (l2, o2))
    (_hv1 : o1 ≠ 0) (_hv2 : o2 ≠ 0) (ho : o1 < o2) (hcw : 0 ≤ cw) :
    ∃ x1 x2, getColumnOffset ch dias k1 cw = some x1 ∧
      getColumnOffset ch dias k2 cw = some x2 ∧ x1 + cw ≤ x2 := by
  simp only [getColumnOffset, h1, h2, Option.map_some']
  refine ⟨_, _, rfl, rfl, offset_step cw _ _ ?_ hcw⟩
  rcases hrtl : ch.rebarsTotalLength with _ | q <;>
    simp only [hrtl, rtlShiftedSeq]
  · exact ho
  · split_ifs <;> omega


/-- Witness for C9: under a Mark/Total configuration with two diameters,
the Mark column (order 1) sits at 0 and the aggregate column (order 2) at
10 = 0 + columnWidth. -/
theorem getColumnOffset_mono_witness :
    ∃ x1 x2, getColumnOffset
        ⟨some ("Mark", 1), none, none, none, some ("Total", 2)⟩ [8, 10]
        ColKey.mark 10 = some x1 ∧
      getColumnOffset
        ⟨some ("Mark", 1), none, none, none, some ("Total", 2)⟩ [8, 10]
        ColKey.rebarsTotalLength 10 = some x2 ∧ x1 + 10 ≤ x2 :=
  getColumnOffset_mono
    ⟨some ("Mark", 1), none, none, none, some ("Total", 2)⟩ [8, 10] 10
    ColKey.mark ColKey.rebarsTotalLength "Mark" "Total" 1 2 rfl rfl
    (by norm_num) (by norm_num) (by norm_num) (by norm_num)

/-- C10: whenever the aggregate column key is present in `column_headers`
but `column_units` lacks the `"RebarsTotalLength"` key, the footer caption
rendering's unguarded unit lookup raises a `KeyError` in either footer
layout, so the whole generation fails. -/
theorem makeBillOfMaterialSVG_keyError (inp : BOMInput)
    (hch : inp.columnHeaders.rebarsTotalLength.isSome)
    (hu : inp.columnUnits.rebarsTotalLength = none) :
    makeBillOfMaterialSVG inp =
      Except.error "KeyError: RebarsTotalLength" := by
  obtain ⟨p, hp⟩ := Option.isSome_iff_exists.mp hch
  by_cases h1 : p.2 ≠ 1 <;>
    simp [makeBillOfMaterialSVG, hp, h1, footerNotLeftmost, footerLeftmost,
      hu]

/-- Witness for C10: a configuration whose aggregate column is present but
whose unit table lacks the aggregate key fails with the `KeyError`. -/
theorem makeBillOfMaterialSVG_keyError_witness :
    makeBillOfMaterialSVG
        ⟨⟨none, none, none, none, some ("Total", 2)⟩, ⟨none, none, none⟩,
          LengthType.realLength, 10, 5, [], []⟩ =
      Except.error "KeyError: RebarsTotalLength" :=
  makeBillOfMaterialSVG_keyError
    ⟨⟨none, none, none, none, some ("Total", 2)⟩, ⟨none, none, none⟩,
      LengthType.realLength, 10, 5, [], []⟩ rfl rfl

/-- The body loop advances `y_offset` by exactly one row height per mark
group. -/
lemma bomRowsLoop_y (ch : ColumnHeaders) (cu : ColumnUnits)
    (lt : LengthType) (dias : List ℚ) (cw rh : ℚ) :
    ∀ (gs : List MarkGroup) (y : ℚ) (acc : List (ℚ × ℚ)),
      (bomRowsLoop ch cu lt dias cw rh gs y acc).2.2 =
        y + (gs.length : ℚ) * rh := by
  intro gs
  induction gs with
  | nil => intro y acc; simp [bomRowsLoop]
  | cons g rest ih =>
    intro y acc
    simp only [bomRowsLoop, ih, List.length_cons]
    push_cast
    ring

/-- C2 amended: every successful run's total vertical extent is the header
band height (two row heights when the aggregate key is present, else one)
plus one row height per mark group, plus one row height for the closing
border row, plus three row heights for the footer block. -/
theorem bomHeight_eq (inp : BOMInput) (r : BOMResult)
    (h : makeBillOfMaterialSVG inp = Except.ok r) :
    r.bomHeight =
      (if inp.columnHeaders.rebarsTotalLength.isSome then
        2 * inp.rowHeight else inp.rowHeight) +
      (inp.groups.length : ℚ) * inp.rowHeight + inp.rowHeight +
      3 * inp.rowHeight := by
  simp only [makeBillOfMaterialSVG] at h
  split at h
  · exact absurd h (by simp)
  · injection h with h
    subst h
    simp only [bomRowsLoop_y, List.length_insertionSort]

/-- The spec's §8 scenario: five columns ordered 1..5, two marks with
diameters 8 and 10, `columnWidth = 10`, `rowHeight = 5`, empty weight
table. -/
def c2Input : BOMInput :=
  { columnHeaders := ⟨some ("Mark", 1), some ("No. of Rebars", 2),
      some ("Diameter in mm", 3), some ("Length in m/piece", 4),
      some ("Total Length in m", 5)⟩
    columnUnits := ⟨some "mm", some "m", some "m"⟩
    rebarLengthType := LengthType.realLength
    columnWidth := 10
    rowHeight := 5
    diaWeightMap := []
    groups := [⟨1, [2], ⟨8, 1000, RebarBase.other⟩⟩,
               ⟨2, [3], ⟨10, 2000, RebarBase.other⟩⟩] }

/-- The drawing the program produces on the §8 scenario. -/
def c2Record : BOMResult :=
  { headerCells := [SvgItem.cell (CellData.txt "Mark") 0 0 10 10,
      SvgItem.cell (CellData.txt "No. of Rebars") 10 0 10 10,
      SvgItem.cell (CellData.txt "Diameter in mm") 20 0 10 10,
      SvgItem.cell (CellData.txt "Length in m/piece") 30 0 10 10,
      SvgItem.cell (CellData.txt "Total Length in m") 40 0 20 5,
      SvgItem.cell (CellData.diaTag 8) 40 5 10 5,
      SvgItem.cell (CellData.diaTag 10) 50 5 10 5]
    bodyRows := [[SvgItem.cell (CellData.int 1) 0 10 10 5,
        SvgItem.cell (CellData.int 2) 10 10 10 5,
        SvgItem.cell (CellData.qty 8 (some "mm")) 20 10 10 5,
        SvgItem.cell (CellData.qty 1000 (some "m")) 30 10 10 5,
        SvgItem.cell (CellData.qty 2000 (some "m")) 40 10 10 5,
        SvgItem.rect 50 10 10 5],
      [SvgItem.cell (CellData.int 2) 0 15 10 5,
        SvgItem.cell (CellData.int 3) 10 15 10 5,
        SvgItem.cell (CellData.qty 10 (some "mm")) 20 15 10 5,
        SvgItem.cell (CellData.qty 2000 (some "m")) 30 15 10 5,
        SvgItem.rect 40 15 10 5,
        SvgItem.cell (CellData.qty 6000 (some "m")) 50 15 10 5]]
    closingRect := SvgItem.rect 0 20 60 5
    footerCells :=
      [SvgItem.cell
        (CellData.txt ("Total length in " ++ "m" ++ "/Diameter")) 0 25 40
        5,
      SvgItem.cell (CellData.txt ("Weight in Kg/" ++ "m")) 0 30 40 5,
      SvgItem.cell (CellData.txt "Total Weight in Kg/Diameter") 0 35 40 5,
      SvgItem.cell (CellData.qty 2000 (some "m")) 40 25 10 5,
      SvgItem.rect 40 30 10 5,
      SvgItem.rect 40 35 10 5,
      SvgItem.cell (CellData.qty 6000 (some "m")) 50 25 10 5,
      SvgItem.rect 50 30 10 5,
      SvgItem.rect 50 35 10 5]
    diaTotals := [(8, 2000), (10, 6000)]
    bomWidth := 60
    bomHeight := 40 }

/-- Evaluating the generation on the §8 scenario. -/
lemma c2_run : makeBillOfMaterialSVG c2Input = Except.ok c2Record := by
  norm_num +decide [c2Input, c2Record, makeBillOfMaterialSVG,
    getUniqueDiameterList, getColumnHeadersSVG, headerCellsLoop,
    diaHeaderCells, ColumnHeaders.toList, ColumnHeaders.size,
    ColumnHeaders.find, List.insertionSort, List.orderedInsert,
    bomRowsLoop, bomRow, baseRebarLengthOf, rebarTotalLength,
    aggregateRowCells, addToDiaTotal, getColumnOffset, rtlShiftedSeq,
    footerNotLeftmost, footerDiaCellsShifted, footerRemainderRects,
    lookupAssoc, lookupWeight, listIndex]

/-- C2 counterexample: on the spec's own scenario the total vertical
extent is 40, not the claimed header + rows×rowHeight + footerRows×rowHeight
= 10 + 10 + 15 = 35 — the closing border row adds one further row height. -/
theorem bomHeight_scenario_counterexample :
    makeBillOfMaterialSVG c2Input = Except.ok c2Record ∧
      c2Record.bomHeight = 40 ∧
      ¬(c2Record.bomHeight = 2 * 5 + 2 * 5 + 3 * 5) := by
  refine ⟨c2_run, by norm_num [c2Record], by norm_num [c2Record]⟩

/-- Witness for the amended C2 on the scenario: 10 + 2·5 + 5 + 15 = 40. -/
theorem bomHeight_eq_witness :
    c2Record.bomHeight =
      (if c2Input.columnHeaders.rebarsTotalLength.isSome then
        2 * c2Input.rowHeight else c2Input.rowHeight) +
      (c2Input.groups.length : ℚ) * c2Input.rowHeight + c2Input.rowHeight +
      3 * c2Input.rowHeight :=
  bomHeight_eq c2Input c2Record c2_run

/-- On a duplicate-free list, `list.index` of the element at position `i`
is `i`. -/
lemma listIndex_getElem (l : List ℚ) (hnd : l.Nodup) :
    ∀ (i : ℕ) (hi : i < l.length), listIndex l l[i] = i := by
  induction l with
  | nil => intro i hi; simp at hi
  | cons a rest ih =>
    intro i hi
    rcases i with _ | n
    · simp [listIndex]
    · have ha : a ∉ rest := (List.nodup_cons.mp hnd).1
      have hn : n < rest.length := by simpa using hi
      have hmem : rest[n] ∈ rest := List.getElem_mem hn
      have hne : ¬a = rest[n] := fun he => ha (he ▸ hmem)
      simp only [List.getElem_cons_succ, listIndex, if_neg hne]
      rw [ih (List.nodup_cons.mp hnd).2 n hn]

/-- On a duplicate-free diameter list, the aggregate cells of a row are the
enumerated diameters mapped to either the data cell (at the row's own
diameter) or an empty rectangle, each one column width apart. -/
lemma aggregateRowCells_eq (data : CellData) (off : ℚ) (dias : List ℚ)
    (gdia y cw rh : ℚ) (hnd : dias.Nodup) :
    aggregateRowCells data off dias gdia y cw rh =
      dias.enum.map fun p =>
        if p.2 = gdia then
          SvgItem.cell data (off + (p.1 : ℚ) * cw) y cw rh
        else SvgItem.rect (off + (p.1 : ℚ) * cw) y cw rh := by
  apply List.ext_getElem
  · simp [aggregateRowCells, List.enum_length]
  · intro i h1 h2
    have hi : i < dias.length := by
      simpa [aggregateRowCells] using h1
    simp only [aggregateRowCells, List.getElem_map, List.getElem_enum,
      listIndex_getElem dias hnd i hi]

/-- The per-item length of a mark's rebar as the spec describes it: the
authored length in `"RealLength"` mode, the sharp-edged reconstruction
otherwise (lines 419-422). -/
def perItemLength (lt : LengthType) (g : MarkGroup) : ℚ :=
  match lt with
  | LengthType.realLength => g.baseRebar.length
  | LengthType.lengthWithSharpEdges => getRebarSharpEdgedLength g.baseRebar

/-- When the `"RebarLength"` key is present, the length the row uses is the
per-item length. -/
lemma baseRebarLengthOf_eq (ch : ColumnHeaders) (lt : LengthType)
    (g : MarkGroup) (h : ch.rebarLength.isSome) :
    baseRebarLengthOf ch lt g = perItemLength lt g := by
  obtain ⟨p, hp⟩ := Option.isSome_iff_exists.mp h
  cases lt <;> simp [baseRebarLengthOf, perItemLength, hp]

/-- The row-total fold is the multiplicity-weighted sum. -/
lemma rebarTotalLength_eq_sum (amounts : List ℤ) (brl : ℚ) :
    rebarTotalLength amounts brl =
      (amounts.map fun (a : ℤ) => (a : ℚ) * brl).sum := by
  suffices h : ∀ (x : ℚ),
      amounts.foldl (fun (acc : ℚ) (a : ℤ) => acc + (a : ℚ) * brl) x =
        x + (amounts.map fun (a : ℤ) => (a : ℚ) * brl).sum by
    simpa [rebarTotalLength] using h 0
  induction amounts with
  | nil => intro x; simp
  | cons a rest ih =>
    intro x
    simp only [List.foldl_cons, List.map_cons, List.sum_cons, ih]
    ring

/-- Accumulating into the per-diameter dictionary does not change its key
set. -/
lemma addToDiaTotal_fst (l : List (ℚ × ℚ)) (k v : ℚ) :
    (addToDiaTotal l k v).map Prod.fst = l.map Prod.fst := by
  induction l with
  | nil => rfl
  | cons p rest ih =>
    rcases p with ⟨a, b⟩
    by_cases h : a = k <;> simp [addToDiaTotal, h, ih]

/-- Accumulating `v` at a present key raises the total of the dictionary's
values by exactly `v`. -/
lemma addToDiaTotal_sum (l : List (ℚ × ℚ)) (k v : ℚ)
    (h : k ∈ l.map Prod.fst) :
    ((addToDiaTotal l k v).map Prod.snd).sum =
      (l.map Prod.snd).sum + v := by
  induction l with
  | nil => simp at h
  | cons p rest ih =>
    rcases p with ⟨a, b⟩
    by_cases hak : a = k
    · simp only [addToDiaTotal, if_pos hak, List.map_cons, List.sum_cons]
      ring
    · have hk : k ∈ rest.map Prod.fst := by
        rcases List.mem_cons.mp h with he | hm
        · exact absurd he.symm hak
        · exact hm
      simp only [addToDiaTotal, if_neg hak, List.map_cons, List.sum_cons,
        ih hk]
      ring

/-- Over the body loop, the dictionary's value total grows by exactly the
sum of the rows' aggregate values, provided every group's diameter is a key
of the dictionary. -/
lemma bomRowsLoop_acc_sum (ch : ColumnHeaders) (cu : ColumnUnits)
    (lt : LengthType) (dias : List ℚ) (cw rh : ℚ) :
    ∀ (gs : List MarkGroup) (y : ℚ) (acc : List (ℚ × ℚ)),
      (∀ g ∈ gs, g.baseRebar.diameter ∈ acc.map Prod.fst) →
      (((bomRowsLoop ch cu lt dias cw rh gs y acc).2.1).map Prod.snd).sum =
        (acc.map Prod.snd).sum +
          (gs.map fun g => rebarTotalLength g.amounts
            (baseRebarLengthOf ch lt g)).sum := by
  intro gs
  induction gs with
  | nil => intro y acc _; simp [bomRowsLoop]
  | cons g rest ih =>
    intro y acc h
    simp only [bomRowsLoop]
    rw [ih (y + rh) _ ?hmem, addToDiaTotal_sum _ _ _
      (h g (List.mem_cons_self g rest))]
    · simp only [List.map_cons, List.sum_cons]
      ring
    case hmem =>
      intro g' hg'
      rw [addToDiaTotal_fst]
      exact h g' (List.mem_cons_of_mem _ hg')

/-- Elements already collected stay in the diameter-collecting fold. -/
lemma diaFold_mem_acc :
    ∀ (gs : List MarkGroup) (acc : List ℚ) (d : ℚ), d ∈ acc →
      d ∈ gs.foldl
        (fun acc g =>
          if g.baseRebar.diameter ∈ acc then acc
          else acc ++ [g.baseRebar.diameter]) acc := by
  intro gs
  induction gs with
  | nil => intro acc d h; exact h
  | cons g rest ih =>
    intro acc d h
    rw [List.foldl_cons]
    apply ih
    by_cases hg : g.baseRebar.diameter ∈ acc <;> simp [hg, h]

/-- Every group's diameter is in the diameter-collecting fold. -/
lemma diaFold_mem :
    ∀ (gs : List MarkGroup) (acc : List ℚ) (g : MarkGroup), g ∈ gs →
      g.baseRebar.diameter ∈ gs.foldl
        (fun acc g =>
          if g.baseRebar.diameter ∈ acc then acc
          else acc ++ [g.baseRebar.diameter]) acc := by
  intro gs
  induction gs with
  | nil => intro acc g h; simp at h
  | cons g' rest ih =>
    intro acc g hg
    rw [List.foldl_cons]
    rcases List.mem_cons.mp hg with he | hmem
    · subst he
      apply diaFold_mem_acc
      by_cases hd : g.baseRebar.diameter ∈ acc <;> simp [hd]
    · exact ih _ g hmem

/-- The diameter-collecting fold preserves freedom from duplicates. -/
lemma diaFold_nodup :
    ∀ (gs : List MarkGroup) (acc : List ℚ), acc.Nodup →
      (gs.foldl
        (fun acc g =>
          if g.baseRebar.diameter ∈ acc then acc
          else acc ++ [g.baseRebar.diameter]) acc).Nodup := by
  intro gs
  induction gs with
  | nil => intro acc h; exact h
  | cons g rest ih =>
    intro acc h
    rw [List.foldl_cons]
    apply ih
    by_cases hg : g.baseRebar.diameter ∈ acc
    · simpa [hg] using h
    · simp [hg, List.nodup_append, h]

/-- The derived diameter list has no duplicates. -/
lemma getUniqueDiameterList_nodup (groups : List MarkGroup) :
    (getUniqueDiameterList groups).Nodup := by
  simp only [getUniqueDiameterList]
  exact (List.perm_insertionSort _ _).symm.nodup
    (diaFold_nodup groups [] (by simp))

/-- Every group's diameter appears in the derived diameter list. -/
lemma mem_getUniqueDiameterList (groups : List MarkGroup) (g : MarkGroup)
    (hg : g ∈ groups) :
    g.baseRebar.diameter ∈ getUniqueDiameterList groups := by
  simp only [getUniqueDiameterList]
  rw [List.mem_insertionSort _]
  exact diaFold_mem groups [] g hg

/-- C3 amended: (1) when the length column key is present (so a real
per-item length is computed), each row's aggregate section is one data cell
carrying the multiplicity-weighted sum of the per-item length, placed at
the enumerated position of the row's diameter, with an empty bordered
rectangle at every other diameter; (2) on every successful run the sum over
diameters of the accumulated footer totals equals the sum over all rows of
their aggregate contributions. -/
theorem aggregateCells_value_and_totals :
    (∀ (ch : ColumnHeaders) (cu : ColumnUnits) (lt : LengthType)
        (dias : List ℚ) (cw rh y : ℚ) (g : MarkGroup) (off : ℚ),
        ch.rebarLength.isSome →
        getColumnOffset ch dias ColKey.rebarsTotalLength cw = some off →
        dias.Nodup → g.baseRebar.diameter ∈ dias →
        ∃ pre, bomRow ch cu lt dias cw rh y g =
          pre ++ dias.enum.map fun p =>
            if p.2 = g.baseRebar.diameter then
              SvgItem.cell
                (CellData.qty
                  ((g.amounts.map fun (a : ℤ) =>
                    (a : ℚ) * perItemLength lt g).sum)
                  cu.rebarsTotalLength)
                (off + (p.1 : ℚ) * cw) y cw rh
            else SvgItem.rect (off + (p.1 : ℚ) * cw) y cw rh) ∧
    (∀ (inp : BOMInput) (r : BOMResult),
        makeBillOfMaterialSVG inp = Except.ok r →
        (r.diaTotals.map Prod.snd).sum =
          (inp.groups.map fun g => rebarTotalLength g.amounts
            (baseRebarLengthOf inp.columnHeaders inp.rebarLengthType
              g)).sum) := by
  constructor
  · intro ch cu lt dias cw rh y g off hRL hoff hnd _hmem
    apply Exists.intro
    simp only [bomRow, hoff]
    rw [aggregateRowCells_eq _ _ _ _ _ _ _ hnd,
      baseRebarLengthOf_eq ch lt g hRL, rebarTotalLength_eq_sum]
  · intro inp r h
    simp only [makeBillOfMaterialSVG] at h
    split at h
    · exact absurd h (by simp)
    · injection h with h
      subst h
      have hmem : ∀ g ∈ List.insertionSort
          (fun a b => a.mark ≤ b.mark) inp.groups,
          g.baseRebar.diameter ∈
            ((getUniqueDiameterList inp.groups).map
              fun dia => (dia, (0 : ℚ))).map Prod.fst := by
        intro g hg
        have hgg : g ∈ inp.groups := (List.mem_insertionSort _).mp hg
        simpa [List.map_map, Function.comp] using
          mem_getUniqueDiameterList inp.groups g hgg
      rw [bomRowsLoop_acc_sum inp.columnHeaders inp.columnUnits
        inp.rebarLengthType (getUniqueDiameterList inp.groups)
        inp.columnWidth inp.rowHeight _ _ _ hmem]
      have hzero : (((getUniqueDiameterList inp.groups).map
          fun dia => (dia, (0 : ℚ))).map Prod.snd).sum = 0 := by
        induction getUniqueDiameterList inp.groups with
        | nil => simp
        | cons d rest ih => simpa using ih
      rw [hzero, zero_add]
      exact ((List.perm_insertionSort
          (fun a b => a.mark ≤ b.mark) inp.groups).map
        (fun g => rebarTotalLength g.amounts
          (baseRebarLengthOf inp.columnHeaders inp.rebarLengthType
            g))).sum_eq

/-- Witness for the amended C3 at the §8 scenario: the first mark's
aggregate section and the run's totals conservation. -/
theorem aggregateCells_value_and_totals_witness :
    (∃ pre, bomRow c2Input.columnHeaders c2Input.columnUnits
        c2Input.rebarLengthType [8, 10] 10 5 10
        ⟨1, [2], ⟨8, 1000, RebarBase.other⟩⟩ =
      pre ++ [(8 : ℚ), 10].enum.map fun p =>
        if p.2 = (⟨1, [2], ⟨8, 1000, RebarBase.other⟩⟩ :
            MarkGroup).baseRebar.diameter then
          SvgItem.cell
            (CellData.qty
              (((⟨1, [2], ⟨8, 1000, RebarBase.other⟩⟩ :
                  MarkGroup).amounts.map fun (a : ℤ) =>
                (a : ℚ) * perItemLength c2Input.rebarLengthType
                  ⟨1, [2], ⟨8, 1000, RebarBase.other⟩⟩).sum)
              c2Input.columnUnits.rebarsTotalLength)
            (40 + (p.1 : ℚ) * 10) 10 10 5
        else SvgItem.rect (40 + (p.1 : ℚ) * 10) 10 10 5) ∧
    (c2Record.diaTotals.map Prod.snd).sum =
      (c2Input.groups.map fun g => rebarTotalLength g.amounts
        (baseRebarLengthOf c2Input.columnHeaders c2Input.rebarLengthType
          g)).sum :=
  ⟨aggregateCells_value_and_totals.1 c2Input.columnHeaders
      c2Input.columnUnits c2Input.rebarLengthType [8, 10] 10 5 10
      ⟨1, [2], ⟨8, 1000, RebarBase.other⟩⟩ 40 rfl
      (by norm_num [getColumnOffset, rtlShiftedSeq, ColumnHeaders.find,
        c2Input])
      (by norm_num) (by norm_num),
   aggregateCells_value_and_totals.2 c2Input c2Record c2_run⟩

/-- The body rows of a successful run (`[]` on a failed run). -/
def bodyRowsOf (inp : BOMInput) : List (List SvgItem) :=
  match makeBillOfMaterialSVG inp with
  | Except.ok r => r.bodyRows
  | Except.error _ => []

/-- The footer cells of a successful run (`[]` on a failed run). -/
def footerCellsOf (inp : BOMInput) : List SvgItem :=
  match makeBillOfMaterialSVG inp with
  | Except.ok r => r.footerCells
  | Except.error _ => []

/-- A configuration whose aggregate column is visible but whose length
column key is absent, with one mark of two rebars of length 100. -/
def c3Input : BOMInput :=
  ⟨⟨none, none, none, none, some ("Total Length in m", 1)⟩,
    ⟨none, none, some "m"⟩, LengthType.realLength, 10, 5, [],
    [⟨1, [2], ⟨8, 100, RebarBase.other⟩⟩]⟩

/-- C3 counterexample: without the `"RebarLength"` key the row's aggregate
cell carries 0, while the multiplicity-weighted sum of the per-item length
is 2 × 100 = 200 — the claim fails as stated. -/
theorem aggregateCell_zero_without_length_column :
    bodyRowsOf c3Input =
      [[SvgItem.cell (CellData.qty 0 (some "m")) 0 10 10 5]] ∧
      (c3Input.groups.map fun g =>
        (g.amounts.map fun (a : ℤ) =>
          (a : ℚ) * perItemLength c3Input.rebarLengthType g).sum).sum =
        200 ∧
      (0 : ℚ) ≠ 200 := by
  refine ⟨?_, ?_, by norm_num⟩
  · norm_num +decide [bodyRowsOf, c3Input, makeBillOfMaterialSVG,
      getUniqueDiameterList, getColumnHeadersSVG, headerCellsLoop,
      diaHeaderCells, ColumnHeaders.toList, ColumnHeaders.size,
      ColumnHeaders.find, List.insertionSort, List.orderedInsert,
      bomRowsLoop, bomRow, baseRebarLengthOf, rebarTotalLength,
      aggregateRowCells, addToDiaTotal, getColumnOffset, rtlShiftedSeq,
      footerNotLeftmost, footerLeftmost, footerDiaCellsShifted,
      footerDiaCellsLeft, footerRemainderRects, lookupAssoc, lookupWeight,
      listIndex]
  · norm_num [c3Input, perItemLength]

/-- The C1 failing input: the `"Mark"` column is hidden (sequence number
0) but present, beside visible `"RebarsCount"` and `"RebarLength"`
columns, with a single mark. -/
def c1Input : BOMInput :=
  ⟨⟨some ("Mark", 0), some ("Count", 1), none, some ("Length", 2), none⟩,
    ⟨none, none, none⟩, LengthType.realLength, 10, 5, [],
    [⟨1, [1], ⟨8, 100, RebarBase.other⟩⟩]⟩

/-- The drawing the program produces on `c1Input`: no `"Mark"` header, yet
a mark body cell at x = −10 and a width counting the hidden column. -/
def c1Record : BOMResult :=
  { headerCells := [SvgItem.cell (CellData.txt "Count") 0 0 10 5,
      SvgItem.cell (CellData.txt "Length") 10 0 10 5]
    bodyRows := [[SvgItem.cell (CellData.int 1) (-10) 5 10 5,
      SvgItem.cell (CellData.int 1) 0 5 10 5,
      SvgItem.cell (CellData.qty 100 none) 10 5 10 5]]
    closingRect := SvgItem.rect 0 10 30 5
    footerCells := []
    diaTotals := [(8, 100)]
    bomWidth := 30
    bomHeight := 30 }

/-- C1: a column with order 0 produces no header cell, but
`makeBillOfMaterialSVG` still renders its body-row cell (at x = −10, one
column width left of the table) and counts it in the computed width (30
instead of the two visible columns' 20) — contradicting the claim and the
function's own docstring ("set column sequence number to 0 to hide
column"). -/
theorem markColumnOrderZero_rendered :
    makeBillOfMaterialSVG c1Input = Except.ok c1Record ∧
      c1Record.headerCells =
        [SvgItem.cell (CellData.txt "Count") 0 0 10 5,
         SvgItem.cell (CellData.txt "Length") 10 0 10 5] ∧
      c1Record.bodyRows =
        [[SvgItem.cell (CellData.int 1) (-10) 5 10 5,
          SvgItem.cell (CellData.int 1) 0 5 10 5,
          SvgItem.cell (CellData.qty 100 none) 10 5 10 5]] ∧
      c1Record.bomWidth = 30 ∧ c1Record.bomWidth ≠ 20 := by
  refine ⟨?_, rfl, rfl, rfl, by norm_num [c1Record]⟩
  norm_num +decide [c1Input, c1Record, makeBillOfMaterialSVG,
    getUniqueDiameterList, getColumnHeadersSVG, headerCellsLoop,
    diaHeaderCells, ColumnHeaders.toList, ColumnHeaders.size,
    ColumnHeaders.find, List.insertionSort, List.orderedInsert,
    bomRowsLoop, bomRow, baseRebarLengthOf, rebarTotalLength,
    aggregateRowCells, addToDiaTotal, getColumnOffset, rtlShiftedSeq,
    footerNotLeftmost, footerLeftmost, footerDiaCellsShifted,
    footerDiaCellsLeft, footerRemainderRects, lookupAssoc, lookupWeight,
    listIndex]

/-- The C6 failing input: aggregate column leftmost (order 1), one
diameter (8) absent from the empty weight table. -/
def c6LeftInput : BOMInput :=
  ⟨⟨some ("Mark", 2), none, none, none, some ("Total", 1)⟩,
    ⟨none, none, some "m"⟩, LengthType.realLength, 10, 5, [],
    [⟨1, [1], ⟨8, 100, RebarBase.other⟩⟩]⟩

/-- The same configuration with the aggregate column not leftmost
(order 2). -/
def c6ShiftInput : BOMInput :=
  ⟨⟨some ("Mark", 1), none, none, none, some ("Total", 2)⟩,
    ⟨none, none, some "m"⟩, LengthType.realLength, 10, 5, [],
    [⟨1, [1], ⟨8, 100, RebarBase.other⟩⟩]⟩

/-- C6: for a diameter missing from the weight table, the not-leftmost
footer layout renders two empty bordered rectangles in the weight rows,
but the leftmost layout renders nothing there — its weight-row cells are
omitted outright, so the two layouts disagree and the claim fails for the
leftmost layout. -/
theorem missingWeight_placeholder_only_in_shifted_layout :
    footerCellsOf c6ShiftInput =
      [SvgItem.cell
        (CellData.txt ("Total length in " ++ "m" ++ "/Diameter")) 0 20 10
        5,
       SvgItem.cell (CellData.txt ("Weight in Kg/" ++ "m")) 0 25 10 5,
       SvgItem.cell (CellData.txt "Total Weight in Kg/Diameter") 0 30 10 5,
       SvgItem.cell (CellData.qty 0 (some "m")) 10 20 10 5,
       SvgItem.rect 10 25 10 5,
       SvgItem.rect 10 30 10 5] ∧
      footerCellsOf c6LeftInput =
        [SvgItem.cell (CellData.qty 0 (some "m")) 0 20 10 5,
         SvgItem.cell
           (CellData.txt ("Total length in " ++ "m" ++ "/Diameter")) 10 20
           10 5,
         SvgItem.cell (CellData.txt ("Weight in Kg/" ++ "m")) 10 25 10 5,
         SvgItem.cell (CellData.txt "Total Weight in Kg/Diameter") 10 30
           10 5] ∧
      SvgItem.rect 0 25 10 5 ∉ footerCellsOf c6LeftInput ∧
      SvgItem.rect 0 30 10 5 ∉ footerCellsOf c6LeftInput := by
  have h2 : footerCellsOf c6LeftInput =
      [SvgItem.cell (CellData.qty 0 (some "m")) 0 20 10 5,
       SvgItem.cell
         (CellData.txt ("Total length in " ++ "m" ++ "/Diameter")) 10 20
         10 5,
       SvgItem.cell (CellData.txt ("Weight in Kg/" ++ "m")) 10 25 10 5,
       SvgItem.cell (CellData.txt "Total Weight in Kg/Diameter") 10 30 10
         5] := by
    norm_num +decide [footerCellsOf, c6LeftInput, makeBillOfMaterialSVG,
      getUniqueDiameterList, getColumnHeadersSVG, headerCellsLoop,
      diaHeaderCells, ColumnHeaders.toList, ColumnHeaders.size,
      ColumnHeaders.find, List.insertionSort, List.orderedInsert,
      bomRowsLoop, bomRow, baseRebarLengthOf, rebarTotalLength,
      aggregateRowCells, addToDiaTotal, getColumnOffset, rtlShiftedSeq,
      footerNotLeftmost, footerLeftmost, footerDiaCellsShifted,
      footerDiaCellsLeft, footerRemainderRects, lookupAssoc, lookupWeight,
      listIndex]
  refine ⟨?_, h2, ?_, ?_⟩
  · norm_num +decide [footerCellsOf, c6ShiftInput, makeBillOfMaterialSVG,
      getUniqueDiameterList, getColumnHeadersSVG, headerCellsLoop,
      diaHeaderCells, ColumnHeaders.toList, ColumnHeaders.size,
      ColumnHeaders.find, List.insertionSort, List.orderedInsert,
      bomRowsLoop, bomRow, baseRebarLengthOf, rebarTotalLength,
      aggregateRowCells, addToDiaTotal, getColumnOffset, rtlShiftedSeq,
      footerNotLeftmost, footerLeftmost, footerDiaCellsShifted,
      footerDiaCellsLeft, footerRemainderRects, lookupAssoc, lookupWeight,
      listIndex]
  · rw [h2]
    intro hmem
    simp only [List.mem_cons, List.not_mem_nil, or_false] at hmem
    rcases hmem with h | h | h | h <;> exact SvgItem.noConfusion h
  · rw [h2]
    intro hmem
    simp only [List.mem_cons, List.not_mem_nil, or_false] at hmem
    rcases hmem with h | h | h | h <;> exact SvgItem.noConfusion h

/-- C7: the output-write path.  When `open(output_file, "w")` itself
raises (unwritable destination), the bare `except` handler's
`str(svg_output_file)` references the never-bound `with` target, raising
an `UnboundLocalError` that escapes `makeBillOfMaterialSVG` — the svg is
not returned.  An unreadable template, by contrast, only logs a read error
and generation continues (standalone markup is written when requested). -/
theorem outputWriteFailure_raises :
    makeBOMFileOutput (some "T") true false true "svg" "table" =
      Except.error
        "UnboundLocalError: local variable svg_output_file referenced before assignment" ∧
      makeBOMFileOutput none true true true "svg" "table" =
        Except.ok ("svg", ["Error reading template file"], some "table") ∧
      makeBOMFileOutput none false true true "svg" "table" =
        Except.ok ("svg", ["Error reading template file"], none) := by
  refine ⟨?_, ?_, ?_⟩ <;> norm_num [makeBOMFileOutput]

end Reinforcement
